import Mathlib

/-!
Verification development for the Airbnb Playwright page-object repository.

The definitions below are a shallow embedding of the control flow of
`pages/airbnb/search_results_page.py` and `pages/airbnb/home_page.py`:
Python `datetime` calendar-day values become a `Date` structure together
with the proleptic-Gregorian ordinal conversions used by `timedelta`
arithmetic, `strftime` day formatting becomes explicit digit-string
builders, and each method is a pure function over an explicit environment
(the rendered DOM grid, element-visibility oracles, viewport state),
returning both its result and a trace of the driver calls it makes.
-/

namespace Airbnb

/-- A calendar day (year, month, day), the value produced by
`datetime.strptime(s, "%Y-%m-%d")` in `is_date_range_blocked`. -/
structure Date where
  year : Nat
  month : Nat
  day : Nat
deriving DecidableEq, Repr

/-- Gregorian leap-year test, as in Python `datetime._is_leap`. -/
def isLeap (y : Nat) : Bool :=
  (y % 4 == 0 && y % 100 != 0) || y % 400 == 0

/-- Days in the non-leap year before the start of month `m` (1-based),
Python `datetime._DAYS_BEFORE_MONTH`. -/
def daysBeforeMonthTbl (m : Nat) : Nat :=
  match m with
  | 1 => 0 | 2 => 31 | 3 => 59 | 4 => 90 | 5 => 120 | 6 => 151
  | 7 => 181 | 8 => 212 | 9 => 243 | 10 => 273 | 11 => 304 | _ => 334

/-- Days in month `m` of a non-leap year, Python `datetime._DAYS_IN_MONTH`. -/
def daysInMonthTbl (m : Nat) : Nat :=
  match m with
  | 2 => 28 | 4 => 30 | 6 => 30 | 9 => 30 | 11 => 30 | _ => 31

/-- Days before January 1st of year `y`, Python `datetime._days_before_year`. -/
def daysBeforeYear (y : Nat) : Nat :=
  let p := y - 1
  p * 365 + p / 4 - p / 100 + p / 400

/-- Proleptic-Gregorian ordinal of a date (0001-01-01 is ordinal 1),
Python `datetime.date.toordinal`.  `timedelta` day arithmetic and
`datetime` comparison in the scanner are arithmetic on this ordinal. -/
def toOrdinal (d : Date) : Nat :=
  daysBeforeYear d.year + daysBeforeMonthTbl d.month
    + (if 2 < d.month && isLeap d.year then 1 else 0) + d.day

/-- Inverse of `toOrdinal`, a direct port of Python `datetime._ord2ymd`:
the date reached from `start_date + timedelta(days=k)` is
`fromOrdinal (toOrdinal start + k)`. -/
def fromOrdinal (n : Nat) : Date :=
  let n0 := n - 1
  let n400 := n0 / 146097
  let r1 := n0 % 146097
  let n100 := r1 / 36524
  let r2 := r1 % 36524
  let n4 := r2 / 1461
  let r3 := r2 % 1461
  let n1 := r3 / 365
  let r4 := r3 % 365
  let year := n400 * 400 + 1 + n100 * 100 + n4 * 4 + n1
  if n1 == 4 || n100 == 4 then
    ⟨year - 1, 12, 31⟩
  else
    let leap := n1 == 3 && (n4 != 24 || n100 == 3)
    let month := (r4 + 50) / 32
    let preceding := daysBeforeMonthTbl month + (if 2 < month && leap then 1 else 0)
    if r4 < preceding then
      let month1 := month - 1
      let preceding1 := preceding - (daysInMonthTbl month1 + (if month1 == 2 && leap then 1 else 0))
      ⟨year, month1, r4 - preceding1 + 1⟩
    else
      ⟨year, month, r4 - preceding + 1⟩

/-- Two-digit zero-padded decimal rendering of `n < 100`, as `%d` / `%m`
produce in `strftime` for day and month numbers. -/
def pad2 (n : Nat) : String :=
  ⟨[Nat.digitChar (n / 10 % 10), Nat.digitChar (n % 10)]⟩

/-- Four-digit zero-padded decimal rendering of `n ≤ 9999`, as `%Y`
produces in `strftime` (Python `datetime` years are at most 9999). -/
def pad4 (n : Nat) : String :=
  ⟨[Nat.digitChar (n / 1000 % 10), Nat.digitChar (n / 100 % 10),
    Nat.digitChar (n / 10 % 10), Nat.digitChar (n % 10)]⟩

/-- `current_date.strftime("%d/%m/%Y")` — the scanner's per-day lookup
string (line 621 of `search_results_page.py`). -/
def strfDMY (d : Date) : String :=
  pad2 d.day ++ "/" ++ pad2 d.month ++ "/" ++ pad4 d.year

/-- `date.strftime("%m/%d/%Y")` — the format used for the range's start
and end anchor keys (lines 605-606 of `search_results_page.py`). -/
def strfMDY (d : Date) : String :=
  pad2 d.month ++ "/" ++ pad2 d.day ++ "/" ++ pad4 d.year

/-- The per-day probe selector
`f'[data-testid="calendar-day-{date_str}"]'` with `date_str` in `%d/%m/%Y`. -/
def daySelector (d : Date) : String :=
  "[data-testid=\x22calendar-day-" ++ strfDMY d ++ "\x22]"

/-- The anchor-day selector built from `start_calendar_date` /
`end_calendar_date`, which use the `%m/%d/%Y` format. -/
def anchorSelector (d : Date) : String :=
  "[data-testid=\x22calendar-day-" ++ strfMDY d ++ "\x22]"

/-- State of one selector in the rendered calendar grid: `absent` when
`locator.count() == 0`, `present attr` when the element exists and its
`data-is-day-blocked` attribute is `attr` (`none` models a null attribute). -/
inductive CellState
  | absent
  | present (attr : Option String)
deriving DecidableEq, Repr

/-- Driver calls the scanner makes: a per-day grid probe
(`locator.count()` plus the attribute read), or a click attempt on one
of the range's anchor days. -/
inductive ScanEvent
  | query (sel : String)
  | clickAnchor (sel : String)
deriving DecidableEq, Repr

/-- The `ValueError("Start date must be before end date")` raised by
`is_date_range_blocked` when start > end. -/
inductive ScanError
  | invalidRange
deriving DecidableEq, Repr

/-- The scanner's `for day_offset in range(days_to_check)` loop
(lines 616-646 of `search_results_page.py`), as a recursion on the number
of remaining days.  `grid` is the rendered calendar (selector to cell
state), `clickOk` tells whether a click on a selector returns normally
(`false` = the click raises, so the matching `except` logs and the loop
continues; when the start-anchor click raises, the end-anchor click in
the same `try` block is never attempted).  Returns the Python
`(is_blocked, blocked_date)` pair together with the trace of driver calls. -/
def scanFrom (grid : String → CellState) (clickOk : String → Bool)
    (aStart aEnd : String) : Nat → Nat → (Bool × Option String) × List ScanEvent
  | _, 0 => ((false, none), [])
  | ord, n + 1 =>
    let d := fromOrdinal ord
    let sel := daySelector d
    match grid sel with
    | .present attr =>
      if attr = some "true" then
        ((true, some (strfDMY d)), [.query sel])
      else
        let r := scanFrom grid clickOk aStart aEnd (ord + 1) n
        (r.1, .query sel :: r.2)
    | .absent =>
      let r := scanFrom grid clickOk aStart aEnd (ord + 1) n
      (r.1, .query sel ::
        (ScanEvent.clickAnchor aStart ::
          (if clickOk aStart then [ScanEvent.clickAnchor aEnd] else [])) ++ r.2)

/-- `is_date_range_blocked` (lines 584-648 of `search_results_page.py`):
parse both dates, format the `%m/%d/%Y` anchor keys, raise `ValueError`
when start > end, otherwise walk `(end - start).days + 1` consecutive
days from the start date. -/
def is_date_range_blocked (grid : String → CellState) (clickOk : String → Bool)
    (startD endD : Date) :
    Except ScanError (Bool × Option String) × List ScanEvent :=
  let s := toOrdinal startD
  let e := toOrdinal endD
  if e < s then
    (.error .invalidRange, [])
  else
    let r := scanFrom grid clickOk (anchorSelector startD) (anchorSelector endD)
      s (e - s + 1)
    (.ok r.1, r.2)

/-- The grid-probe selectors of a trace, in order (anchor clicks dropped). -/
def queriedSelectors : List ScanEvent → List String
  | [] => []
  | .query sel :: t => sel :: queriedSelectors t
  | .clickAnchor _ :: t => queriedSelectors t

/-- The day the scanner visits at offset `k` from the range start:
`start_date + timedelta(days=k)`. -/
def dayAt (startD : Date) (k : Nat) : Date :=
  fromOrdinal (toOrdinal startD + k)

/-- The day's element exists in the grid and its `data-is-day-blocked`
attribute equals the string `true` — the condition under which the
scanner short-circuits with `Blocked`. -/
def blockedInGrid (grid : String → CellState) (d : Date) : Prop :=
  grid (daySelector d) = .present (some "true")

instance (grid : String → CellState) (d : Date) :
    Decidable (blockedInGrid grid d) := by
  unfold blockedInGrid
  infer_instance

/-- Outcome of one `selector.is_visible(timeout=...)` call inside a
fallback chain: the check returns a boolean, or raises (`error`). -/
def VisCheck (α : Type) := α → Except Unit Bool

/-- The ordered fallback-chain loops of the repository
(`HomePage.navigate` lines 80-88, the indicator loops of
`wait_for_page_load` lines 117-164): try each candidate in declaration
order, stop at the first whose visibility check returns `true`; a check
that returns `false` or raises lets the loop continue.  Returns the
first visible candidate (or `none`) and the list of candidates whose
checks were evaluated, in evaluation order. -/
def resolveChain (check : VisCheck α) : List α → Option α × List α
  | [] => (none, [])
  | c :: rest =>
    match check c with
    | .ok true => (some c, [c])
    | _ =>
      let r := resolveChain check rest
      (r.1, c :: r.2)

/-- Wrap a test id in the locator pattern
`f"[data-testid='{test_id}']"` used throughout both page objects. -/
def mkTestIdSel (testId : String) : String :=
  "[data-testid=\x27" ++ testId ++ "\x27]"

/-- `load_indicators` of `wait_for_page_load`
(lines 109-114 of `search_results_page.py`). -/
def loadIndicators : List String :=
  ["card-container", "listing-card", "explore-footer", "little-search"]

/-- `generic_selectors` of `wait_for_page_load`
(lines 138-145 of `search_results_page.py`). -/
def genericSelectors : List String :=
  ["[itemprop=\x27itemListElement\x27]", "main[id=\x27site-content\x27]",
   "div[role=\x27main\x27]", "footer", "h1", "div.container"]

/-- Environment of one `wait_for_page_load` call: whether the page
handle is still open (`_is_page_available`), whether the
`domcontentloaded` load-state wait finished inside its deadline
(`false` = it raised a timeout, which the method only logs), the
visibility oracle for selectors, and whether `wait_for_selector("body > *")`
finds any content. -/
structure LoadEnv where
  pageAvailable : Bool
  domLoaded : Bool
  visible : VisCheck String
  bodyHasContent : Bool

/-- Which return path `wait_for_page_load` takes: `ready sel` for the
`return` inside an indicator loop after `sel` was visible, `degraded`
for the final fall-through return ("Page loaded without finding specific
indicators"), `unavailable` for the early `return` when the page handle
is closed.  The Python method returns `None` on every path and raises on
none of them; the constructors name the branches. -/
inductive LoadOutcome
  | ready (sel : String)
  | degraded
  | unavailable
deriving DecidableEq, Repr

/-- The two back-to-back indicator loops of `wait_for_page_load`
(lines 117-164 of `search_results_page.py`): the `load_indicators`
test-id loop first; only when it finds nothing, the `generic_selectors`
loop.  Returns the first visible selector (the one whose loop iteration
hit `return`) and the probed selectors in evaluation order. -/
def probeIndicators (vis : VisCheck String) : Option String × List String :=
  let r1 := resolveChain vis (loadIndicators.map mkTestIdSel)
  match r1.1 with
  | some _ => r1
  | none =>
    let r2 := resolveChain vis genericSelectors
    (r2.1, r1.2 ++ r2.2)

/-- The two indicator loops of `wait_for_page_load` viewed as one
priority list: specific test ids first, generic selectors after. -/
def readinessChain : List String :=
  loadIndicators.map mkTestIdSel ++ genericSelectors

/-- `wait_for_page_load` (lines 47-197 of `search_results_page.py`).
Screenshot attachments, logging, and `_ensure_full_screen` have no
effect on which branch is taken and are omitted; the repeated
`_is_page_available()` checks all read the same page handle and are
modelled by the single `pageAvailable` flag.  The `domcontentloaded`
wait and the final `wait_for_selector("body > *")` wait each sit in
their own `try/except`, so neither `domLoaded` nor `bodyHasContent`
influences which branch returns.  Also returns the list of selectors
whose visibility was probed, in evaluation order. -/
def wait_for_page_load (env : LoadEnv) : LoadOutcome × List String :=
  if !env.pageAvailable then
    (.unavailable, [])
  else
    let r := probeIndicators env.visible
    match r.1 with
    | some sel => (.ready sel, r.2)
    | none => (.degraded, r.2)

/-- A viewport size, the dict `{"width": w, "height": h}` compared by
`_ensure_full_screen`. -/
structure Viewport where
  width : Nat
  height : Nat
deriving DecidableEq, Repr

/-- Corrective driver calls `_ensure_full_screen` can make. -/
inductive GuardAction
  | setViewport (v : Viewport)
  | bringToFront
  | settleWait
deriving DecidableEq, Repr

/-- `_ensure_full_screen` (lines 212-234 of `search_results_page.py`,
identically lines 240-262 of `home_page.py`): read
`page.viewport_size` (`none` when the page has no viewport); if it
differs from the expected spec, set the viewport to the expected size,
bring the window to front and wait 500 ms, else only log.  Returns
whether the corrective branch ran, the viewport after the call
(`set_viewport_size` makes the page report the requested size), and the
driver calls made. -/
def ensure_full_screen (expected : Viewport) (current : Option Viewport) :
    Bool × Option Viewport × List GuardAction :=
  if current = some expected then
    (false, current, [])
  else
    (true, some expected,
      [.setViewport expected, .bringToFront, .settleWait])

/-- Environment of `remove_kids_from__highest_rated_listing`: what the
guest-count button and the children stepper value label read after `k`
clicks of the decrease button have been performed (`k = 0` is the
initial render).  Readings are integers, as the method parses them with
`int(...)`. -/
structure GuestEnv where
  readGuests : Nat → Int
  readChild : Nat → Int

/-- UI events of the guest-reduction flow: opening the guest picker and
clicking the children decrease stepper. -/
inductive GuestEvent
  | openGuests
  | clickDecrease
deriving DecidableEq, Repr

/-- `remove_kids_from__highest_rated_listing`
(lines 485-528 of `search_results_page.py`): read the total guest
count, open the picker, read the child count; when it exceeds the
target, click decrease `current - target` times (the increase branch
only computes a local and clicks nothing, and `reduce_child_count`
keeps its initial value 1 there); re-read both controls and assert
`new_child_count == current_child_num` and
`guests_after == guests_before - reduce_child_count`, re-raising
`AssertionError` when either fails.  Returns `ok` / `error` for the
assertion outcome and the UI event trace. -/
def remove_kids_from__highest_rated_listing (env : GuestEnv)
    (newChildCount : Int) : Except Unit Unit × List GuestEvent :=
  let guestsBefore := env.readGuests 0
  let childBefore := env.readChild 0
  let clicks := if childBefore > newChildCount then (childBefore - newChildCount).toNat else 0
  let reduceCount : Int := if childBefore > newChildCount then childBefore - newChildCount else 1
  let childAfter := env.readChild clicks
  let guestsAfter := env.readGuests clicks
  let events := GuestEvent.openGuests :: List.replicate clicks GuestEvent.clickDecrease
  if newChildCount = childAfter ∧ guestsAfter = guestsBefore - reduceCount then
    (.ok (), events)
  else
    (.error (), events)

/-- `needle` occurs as a contiguous run at the head of `hay`. -/
def leadsWith : List Char → List Char → Bool
  | [], _ => true
  | _ :: _, [] => false
  | a :: as, b :: bs => a == b && leadsWith as bs

/-- Python's `needle in hay` substring test on strings. -/
def containsSub (needle : List Char) : List Char → Bool
  | [] => needle.isEmpty
  | hay@(_ :: rest) => leadsWith needle hay || containsSub needle rest

/-- The f-string `f"numberOfAdults={adults_count}"` of
`reserve_and_validate`. -/
def numberOfAdultsStr (adultsCount : Int) : String :=
  "numberOfAdults=" ++ toString adultsCount

/-- Python truthiness of a string: non-empty. -/
def pyTruthy (s : String) : Bool :=
  s ≠ ""

/-- The condition checked by the final
`assert f"numberOfAdults={adults_count}" and "book" in url_after_reserve`
(line 581 of `search_results_page.py`): Python `and` yields its right
operand when the left is truthy and the left operand otherwise, and
`assert` tests the truthiness of that value. -/
def finalAssertCond (adultsCount : Int) (urlAfter : String) : Bool :=
  if pyTruthy (numberOfAdultsStr adultsCount) then
    containsSub "book".data urlAfter.data
  else
    pyTruthy (numberOfAdultsStr adultsCount)

/-- The assertion sequence of `reserve_and_validate`
(lines 568-581 of `search_results_page.py`) after the reserve click:
`assert url_before_reserve != url_after_reserve`, then the `and`
assertion above.  `ok` when both pass, `error` when an
`AssertionError` is raised. -/
def reserve_and_validate (adultsCount : Int) (urlBefore urlAfter : String) :
    Except Unit Unit :=
  if urlBefore = urlAfter then
    .error ()
  else if finalAssertCond adultsCount urlAfter then
    .ok ()
  else
    .error ()

/-- The day's element exists in the grid with an attribute other than
the string `true`: the scanner's "known and clear" case, in which it
moves on to the next day without clicking. -/
def presentClear (grid : String → CellState) (d : Date) : Bool :=
  match grid (daySelector d) with
  | .present attr => decide (attr ≠ some "true")
  | .absent => false

deriving instance DecidableEq for Except

/-- Number of `set_viewport_size` calls in a guard-action trace. -/
def viewportCorrections : List GuardAction → Nat
  | [] => 0
  | .setViewport _ :: t => viewportCorrections t + 1
  | _ :: t => viewportCorrections t

/-- Concrete visibility oracle that raises on `footer` and reports
everything else not visible. -/
def visErrOnFooter : VisCheck String := fun sel =>
  if sel = "footer" then .error () else .ok false

/-- A guest picker whose stepper behaves as documented: every click of
the children decrease button lowers the children label by one and the
displayed total guest count by one. -/
def stepperEnv (guests children : Int) : GuestEnv :=
  ⟨fun k => guests - k, fun k => children - k⟩

/-- Concrete grid for exercising the scanner: 2025-06-12 is rendered
and blocked, every other day is rendered and clear. -/
def gridBlockedOnJun12 : String → CellState := fun sel =>
  if sel = daySelector ⟨2025, 6, 12⟩ then .present (some "true")
  else .present (some "false")

/-- Concrete grid in which every day is rendered and clear. -/
def gridAllClear : String → CellState := fun _ =>
  .present (some "false")

/-- Concrete grid with a render gap: 2025-06-11 is missing from the
grid, every other day is rendered and clear. -/
def gridGapOnJun11 : String → CellState := fun sel =>
  if sel = daySelector ⟨2025, 6, 11⟩ then .absent
  else .present (some "false")

/-- Concrete grid with a render gap and a later block: 2025-06-11 is
missing, 2025-06-12 is rendered and blocked, the rest clear. -/
def gridGapThenBlock : String → CellState := fun sel =>
  if sel = daySelector ⟨2025, 6, 11⟩ then .absent
  else if sel = daySelector ⟨2025, 6, 12⟩ then .present (some "true")
  else .present (some "false")

/-- Concrete visibility oracle: only the `listing-card` load indicator
is visible. -/
def visOnlyListingCard : VisCheck String := fun sel =>
  .ok (sel = mkTestIdSel "listing-card")

section Lemmas

variable {α : Type}

theorem queriedSelectors_append (t₁ t₂ : List ScanEvent) :
    queriedSelectors (t₁ ++ t₂) = queriedSelectors t₁ ++ queriedSelectors t₂ := by
  induction t₁ with
  | nil => rfl
  | cons e t ih => cases e <;> simp [queriedSelectors, ih]

theorem digitChar_inj : ∀ a < 10, ∀ b < 10,
    Nat.digitChar a = Nat.digitChar b → a = b := by decide

theorem dayMap_succ {β : Type} (g : Nat → β) (ord m : Nat) :
    (List.range (m + 1)).map (fun j => g (ord + j))
      = g ord :: (List.range m).map (fun j => g (ord + 1 + j)) := by
  rw [List.range_succ_eq_map, List.map_cons, List.map_map]
  refine congrArg₂ _ (by simp) (List.map_congr_left fun j _ => ?_)
  simp only [Function.comp_apply]
  exact congrArg g (by omega)

theorem daySelMap_succ (ord m : Nat) :
    (List.range (m + 1)).map (fun j => daySelector (fromOrdinal (ord + j)))
      = daySelector (fromOrdinal ord)
        :: (List.range m).map (fun j => daySelector (fromOrdinal (ord + 1 + j))) :=
  dayMap_succ (fun o => daySelector (fromOrdinal o)) ord m

theorem dayQueryMap_succ (ord m : Nat) :
    (List.range (m + 1)).map (fun j => ScanEvent.query (daySelector (fromOrdinal (ord + j))))
      = ScanEvent.query (daySelector (fromOrdinal ord))
        :: (List.range m).map
            (fun j => ScanEvent.query (daySelector (fromOrdinal (ord + 1 + j)))) :=
  dayMap_succ (fun o => ScanEvent.query (daySelector (fromOrdinal o))) ord m

theorem queried_clicks (c : Bool) (aE : String) :
    queriedSelectors (if c then [ScanEvent.clickAnchor aE] else []) = [] := by
  cases c <;> rfl

theorem scanFrom_no_block (grid : String → CellState) (clickOk : String → Bool)
    (aS aE : String) :
    ∀ n ord, (∀ j < n, ¬ blockedInGrid grid (fromOrdinal (ord + j))) →
      (scanFrom grid clickOk aS aE ord n).1 = (false, none) ∧
        queriedSelectors (scanFrom grid clickOk aS aE ord n).2
          = (List.range n).map (fun j => daySelector (fromOrdinal (ord + j))) := by
  intro n
  induction n with
  | zero => intro ord _; exact ⟨rfl, rfl⟩
  | succ m ih =>
    intro ord h
    have h0 : ¬ blockedInGrid grid (fromOrdinal ord) := by
      simpa using h 0 (Nat.succ_pos m)
    have ih' := ih (ord + 1) fun j hj => by
      rw [show ord + 1 + j = ord + (j + 1) by omega]
      exact h (j + 1) (by omega)
    rw [daySelMap_succ]
    cases hg : grid (daySelector (fromOrdinal ord)) with
    | present attr =>
      have hne : ¬ attr = some "true" := fun he => by
        rw [blockedInGrid, hg, he] at h0; exact h0 rfl
      simp only [scanFrom, hg, if_neg hne, queriedSelectors]
      exact ⟨ih'.1, by rw [ih'.2]⟩
    | absent =>
      simp only [scanFrom, hg, queriedSelectors, List.cons_append,
        queriedSelectors_append, queried_clicks, List.nil_append]
      exact ⟨ih'.1, by rw [ih'.2]⟩

theorem scanFrom_first_block (grid : String → CellState) (clickOk : String → Bool)
    (aS aE : String) :
    ∀ k n ord, k < n → blockedInGrid grid (fromOrdinal (ord + k)) →
      (∀ j < k, ¬ blockedInGrid grid (fromOrdinal (ord + j))) →
      (scanFrom grid clickOk aS aE ord n).1
          = (true, some (strfDMY (fromOrdinal (ord + k)))) ∧
        queriedSelectors (scanFrom grid clickOk aS aE ord n).2
          = (List.range (k + 1)).map (fun j => daySelector (fromOrdinal (ord + j))) := by
  intro k
  induction k with
  | zero =>
    intro n ord hk hb _
    obtain ⟨m, rfl⟩ : ∃ m, n = m + 1 := ⟨n - 1, by omega⟩
    rw [Nat.add_zero] at hb ⊢
    have hb' : grid (daySelector (fromOrdinal ord)) = .present (some "true") := hb
    simp [scanFrom, hb', queriedSelectors, List.range_succ]
  | succ k ih =>
    intro n ord hk hb hprev
    obtain ⟨m, rfl⟩ : ∃ m, n = m + 1 := ⟨n - 1, by omega⟩
    have h0 : ¬ blockedInGrid grid (fromOrdinal ord) := by
      simpa using hprev 0 (by omega)
    have ih' := ih m (ord + 1) (by omega)
      (by rw [show ord + 1 + k = ord + (k + 1) by omega]; exact hb)
      (fun j hj => by
        rw [show ord + 1 + j = ord + (j + 1) by omega]
        exact hprev (j + 1) (by omega))
    have hres : strfDMY (fromOrdinal (ord + 1 + k)) = strfDMY (fromOrdinal (ord + (k + 1))) := by
      rw [show ord + 1 + k = ord + (k + 1) by omega]
    rw [daySelMap_succ]
    cases hg : grid (daySelector (fromOrdinal ord)) with
    | present attr =>
      have hne : ¬ attr = some "true" := fun he => by
        rw [blockedInGrid, hg, he] at h0; exact h0 rfl
      simp only [scanFrom, hg, if_neg hne, queriedSelectors]
      exact ⟨by rw [ih'.1, hres], by rw [ih'.2]⟩
    | absent =>
      simp only [scanFrom, hg, queriedSelectors, List.cons_append,
        queriedSelectors_append, queried_clicks, List.nil_append]
      exact ⟨by rw [ih'.1, hres], by rw [ih'.2]⟩

theorem pad2_length_data (n : Nat) : (pad2 n).data.length = 2 := rfl

theorem pad2_inj {a b : Nat} (ha : a < 100) (hb : b < 100)
    (h : pad2 a = pad2 b) : a = b := by
  have h' := congrArg String.data h
  simp only [pad2] at h'
  have h1 : Nat.digitChar (a / 10 % 10) = Nat.digitChar (b / 10 % 10) := by
    simpa using congrArg (fun l => l.headI) h'
  have h2 : Nat.digitChar (a % 10) = Nat.digitChar (b % 10) := by
    simpa using congrArg (fun l => l.tail.headI) h'
  have e1 : a / 10 % 10 = b / 10 % 10 :=
    digitChar_inj _ (Nat.mod_lt _ (by norm_num)) _ (Nat.mod_lt _ (by norm_num)) h1
  have e2 : a % 10 = b % 10 :=
    digitChar_inj _ (Nat.mod_lt _ (by norm_num)) _ (Nat.mod_lt _ (by norm_num)) h2
  omega

theorem scanFrom_gap (grid : String → CellState) (clickOk : String → Bool)
    (aS aE : String) :
    ∀ k n ord, k < n →
      (∀ j < k, presentClear grid (fromOrdinal (ord + j)) = true) →
      grid (daySelector (fromOrdinal (ord + k))) = .absent →
      scanFrom grid clickOk aS aE ord n
        = ((scanFrom grid clickOk aS aE (ord + k + 1) (n - k - 1)).1,
           (List.range (k + 1)).map
               (fun j => ScanEvent.query (daySelector (fromOrdinal (ord + j))))
             ++ (ScanEvent.clickAnchor aS ::
                  (if clickOk aS then [ScanEvent.clickAnchor aE] else []))
             ++ (scanFrom grid clickOk aS aE (ord + k + 1) (n - k - 1)).2) := by
  intro k
  induction k with
  | zero =>
    intro n ord hk hpc hab
    obtain ⟨m, rfl⟩ : ∃ m, n = m + 1 := ⟨n - 1, by omega⟩
    rw [Nat.add_zero] at hab ⊢
    simp [scanFrom, hab, List.range_succ]
  | succ k ih =>
    intro n ord hk hpc hab
    obtain ⟨m, rfl⟩ : ∃ m, n = m + 1 := ⟨n - 1, by omega⟩
    have h0 : presentClear grid (fromOrdinal ord) = true := by
      simpa using hpc 0 (by omega)
    have ih' := ih m (ord + 1) (by omega)
      (fun j hj => by
        rw [show ord + 1 + j = ord + (j + 1) by omega]
        exact hpc (j + 1) (by omega))
      (by rw [show ord + 1 + k = ord + (k + 1) by omega]; exact hab)
    rw [dayQueryMap_succ]
    have harith : ord + 1 + k + 1 = ord + (k + 1) + 1 := by omega
    rw [harith] at ih'
    cases hg : grid (daySelector (fromOrdinal ord)) with
    | present attr =>
      have hne : ¬ attr = some "true" := by
        rw [presentClear, hg] at h0
        simpa using h0
      have hsub : m + 1 - (k + 1) - 1 = m - k - 1 := by omega
      simp only [scanFrom, hg, if_neg hne, ih', hsub, List.cons_append,
        List.append_assoc]
    | absent =>
      rw [presentClear, hg] at h0
      simp at h0

theorem scanFrom_blocked_key_is_rendered (grid : String → CellState)
    (clickOk : String → Bool) (aS aE : String) :
    ∀ n ord key, (scanFrom grid clickOk aS aE ord n).1 = (true, some key) →
      ∀ d : Date, strfDMY d = key →
        grid (daySelector d) = .present (some "true") := by
  intro n
  induction n with
  | zero => intro ord key h; simp [scanFrom] at h
  | succ m ih =>
    intro ord key h d hd
    cases hg : grid (daySelector (fromOrdinal ord)) with
    | present attr =>
      by_cases ht : attr = some "true"
      · subst ht
        simp only [scanFrom, hg, if_pos rfl] at h
        have hkey : strfDMY (fromOrdinal ord) = key := by
          simpa using congrArg (fun p => p.2) h
        have hsel : daySelector d = daySelector (fromOrdinal ord) := by
          rw [daySelector, daySelector, hd, hkey]
        rw [hsel, hg]
      · simp only [scanFrom, hg, if_neg ht] at h
        exact ih (ord + 1) key h d hd
    | absent =>
      simp only [scanFrom, hg] at h
      exact ih (ord + 1) key h d hd

theorem resolveChain_skip {α : Type} (check : VisCheck α) (c : α) (rest : List α)
    (h : check c ≠ .ok true) :
    resolveChain check (c :: rest)
      = ((resolveChain check rest).1, c :: (resolveChain check rest).2) := by
  cases hc : check c with
  | error u => simp [resolveChain, hc]
  | ok b =>
    cases b with
    | true => exact absurd hc h
    | false => simp [resolveChain, hc]

theorem resolveChain_found {α : Type} (check : VisCheck α) :
    ∀ (pre : List α) (c : α) (post : List α),
      (∀ x ∈ pre, check x ≠ .ok true) → check c = .ok true →
      resolveChain check (pre ++ c :: post) = (some c, pre ++ [c]) := by
  intro pre
  induction pre with
  | nil => intro c post _ hc; simp [resolveChain, hc]
  | cons a t ih =>
    intro c post hpre hc
    have ha : check a ≠ .ok true := hpre a (by simp)
    rw [List.cons_append, resolveChain_skip check a _ ha,
      ih c post (fun x hx => hpre x (by simp [hx])) hc]
    simp

theorem resolveChain_none {α : Type} (check : VisCheck α) :
    ∀ chain : List α, (∀ x ∈ chain, check x ≠ .ok true) →
      resolveChain check chain = (none, chain) := by
  intro chain
  induction chain with
  | nil => intro _; rfl
  | cons a t ih =>
    intro h
    rw [resolveChain_skip check a t (h a (by simp)),
      ih (fun x hx => h x (by simp [hx]))]

theorem resolveChain_append_eq {α : Type} (check : VisCheck α) :
    ∀ l1 l2 : List α,
      resolveChain check (l1 ++ l2)
        = match (resolveChain check l1).1 with
          | some _ => resolveChain check l1
          | none => ((resolveChain check l2).1,
              (resolveChain check l1).2 ++ (resolveChain check l2).2) := by
  intro l1
  induction l1 with
  | nil => intro l2; simp [resolveChain]
  | cons a t ih =>
    intro l2
    cases hc : check a with
    | ok b =>
      cases b with
      | true => simp [resolveChain, hc]
      | false =>
        rw [List.cons_append, resolveChain_skip check a _ (by simp [hc]),
          resolveChain_skip check a t (by simp [hc]), ih l2]
        cases h1 : (resolveChain check t).1 <;> simp [h1]
    | error u =>
      rw [List.cons_append, resolveChain_skip check a _ (by simp [hc]),
        resolveChain_skip check a t (by simp [hc]), ih l2]
      cases h1 : (resolveChain check t).1 <;> simp [h1]

theorem probeIndicators_eq_chain (vis : VisCheck String) :
    probeIndicators vis = resolveChain vis readinessChain := by
  rw [probeIndicators, readinessChain, resolveChain_append_eq]
  cases h1 : (resolveChain vis (loadIndicators.map mkTestIdSel)).1 <;> simp [h1]

theorem wait_for_page_load_eq_chain (env : LoadEnv)
    (h : env.pageAvailable = true) :
    wait_for_page_load env
      = (match (resolveChain env.visible readinessChain).1 with
          | some sel => LoadOutcome.ready sel
          | none => LoadOutcome.degraded,
         (resolveChain env.visible readinessChain).2) := by
  rw [wait_for_page_load, h, probeIndicators_eq_chain]
  cases hr : (resolveChain env.visible readinessChain).1 <;> simp [hr]

end Lemmas

/-- **C1.** For every valid date range and every per-day grid
assignment, the scan visits the days of the range in strictly
chronological order from the start and, at the first day rendered in
the grid with `data-is-day-blocked` equal to `true`, returns
`(True, that day's %d/%m/%Y string)` immediately: the grid probes made
are exactly the days from the start through that day, in order, so no
later day of the range is queried. -/
theorem scan_first_blocked_day_short_circuits
    (grid : String → CellState) (clickOk : String → Bool)
    (startD endD : Date) (k : Nat)
    (hrange : toOrdinal startD ≤ toOrdinal endD)
    (hk : k ≤ toOrdinal endD - toOrdinal startD)
    (hb : blockedInGrid grid (dayAt startD k))
    (hprev : ∀ j < k, ¬ blockedInGrid grid (dayAt startD j)) :
    (is_date_range_blocked grid clickOk startD endD).1
        = .ok (true, some (strfDMY (dayAt startD k))) ∧
      queriedSelectors (is_date_range_blocked grid clickOk startD endD).2
        = (List.range (k + 1)).map (fun j => daySelector (dayAt startD j)) := by
  have hnot : ¬ (toOrdinal endD < toOrdinal startD) := by omega
  have main := scanFrom_first_block grid clickOk
    (anchorSelector startD) (anchorSelector endD) k
    (toOrdinal endD - toOrdinal startD + 1) (toOrdinal startD)
    (by omega) hb hprev
  simp only [is_date_range_blocked, if_neg hnot, dayAt]
  exact ⟨by rw [main.1], main.2⟩

/-- Witness for C1: the spec's instance, range 2025-06-10..2025-06-12
with days 10 and 11 clear and day 12 blocked, returns blocked with day
12's key, after querying exactly days 10, 11, 12 in that order. -/
theorem scan_first_blocked_day_short_circuits_witness :
    (is_date_range_blocked gridBlockedOnJun12 (fun _ => true)
        ⟨2025, 6, 10⟩ ⟨2025, 6, 12⟩).1
        = .ok (true, some (strfDMY (dayAt ⟨2025, 6, 10⟩ 2))) ∧
      queriedSelectors (is_date_range_blocked gridBlockedOnJun12 (fun _ => true)
          ⟨2025, 6, 10⟩ ⟨2025, 6, 12⟩).2
        = (List.range 3).map (fun j => daySelector (dayAt ⟨2025, 6, 10⟩ j)) :=
  scan_first_blocked_day_short_circuits gridBlockedOnJun12 (fun _ => true)
    ⟨2025, 6, 10⟩ ⟨2025, 6, 12⟩ 2 (by decide) (by decide) (by decide) (by decide)

/-- **C4.** For every valid date range in which no day rendered in the
grid is marked blocked, the scan returns `(False, None)` and its grid
probes are exactly one per calendar day of `[start, end]` inclusive, in
chronological order: `(end - start).days + 1` probes in total. -/
theorem scan_clear_range_visits_every_day
    (grid : String → CellState) (clickOk : String → Bool)
    (startD endD : Date)
    (hrange : toOrdinal startD ≤ toOrdinal endD)
    (hclear : ∀ j ≤ toOrdinal endD - toOrdinal startD,
      ¬ blockedInGrid grid (dayAt startD j)) :
    (is_date_range_blocked grid clickOk startD endD).1 = .ok (false, none) ∧
      queriedSelectors (is_date_range_blocked grid clickOk startD endD).2
        = (List.range (toOrdinal endD - toOrdinal startD + 1)).map
            (fun j => daySelector (dayAt startD j)) ∧
      (queriedSelectors (is_date_range_blocked grid clickOk startD endD).2).length
        = (toOrdinal endD - toOrdinal startD) + 1 := by
  have hnot : ¬ (toOrdinal endD < toOrdinal startD) := by omega
  have main := scanFrom_no_block grid clickOk
    (anchorSelector startD) (anchorSelector endD)
    (toOrdinal endD - toOrdinal startD + 1) (toOrdinal startD)
    (fun j hj => hclear j (by omega))
  simp only [is_date_range_blocked, if_neg hnot, dayAt]
  refine ⟨by rw [main.1], main.2, ?_⟩
  rw [main.2]
  simp

/-- Witness for C4: the single-day range 2025-06-10..2025-06-10 over an
all-clear grid returns clear after exactly one day's probe. -/
theorem scan_clear_range_visits_every_day_witness :
    (is_date_range_blocked gridAllClear (fun _ => true)
        ⟨2025, 6, 10⟩ ⟨2025, 6, 10⟩).1 = .ok (false, none) ∧
      queriedSelectors (is_date_range_blocked gridAllClear (fun _ => true)
          ⟨2025, 6, 10⟩ ⟨2025, 6, 10⟩).2
        = (List.range (toOrdinal ⟨2025, 6, 10⟩ - toOrdinal ⟨2025, 6, 10⟩ + 1)).map
            (fun j => daySelector (dayAt ⟨2025, 6, 10⟩ j)) ∧
      (queriedSelectors (is_date_range_blocked gridAllClear (fun _ => true)
          ⟨2025, 6, 10⟩ ⟨2025, 6, 10⟩).2).length
        = (toOrdinal ⟨2025, 6, 10⟩ - toOrdinal ⟨2025, 6, 10⟩) + 1 :=
  scan_clear_range_visits_every_day gridAllClear (fun _ => true)
    ⟨2025, 6, 10⟩ ⟨2025, 6, 10⟩ (by decide) (by decide)

/-- **C2.** For every pair of dates with start strictly after end,
`is_date_range_blocked` raises the invalid-range `ValueError`
immediately: the result is the error (never a silently corrected
`ok`), and the trace is empty, so no day of the grid was consulted
before the raise. -/
theorem scan_invalid_range_raises_immediately
    (grid : String → CellState) (clickOk : String → Bool)
    (startD endD : Date) (h : toOrdinal endD < toOrdinal startD) :
    is_date_range_blocked grid clickOk startD endD
      = (.error .invalidRange, []) := by
  simp [is_date_range_blocked, h]

/-- Witness for C2: the spec's own instance, `start = 2025-06-15`,
`end = 2025-06-10`, raises `InvalidRange` with no grid query. -/
theorem scan_invalid_range_raises_immediately_witness :
    is_date_range_blocked (fun _ => CellState.absent) (fun _ => true)
      ⟨2025, 6, 15⟩ ⟨2025, 6, 10⟩ = (.error .invalidRange, []) :=
  scan_invalid_range_raises_immediately _ _ _ _ (by decide)

/-- **C3.** The scanner's per-day probe key uses `%d/%m/%Y` while the
range-anchor keys use `%m/%d/%Y`, so for every date whose day-of-month
differs from its month number the probe key differs from the anchor key
of the very same day — both as the bare formatted strings and as the
full `calendar-day-` test-id selectors. -/
theorem scanner_mixed_date_formats_give_distinct_keys
    (d : Date) (hd : d.day < 100) (hm : d.month < 100)
    (hne : d.day ≠ d.month) :
    strfDMY d ≠ strfMDY d ∧ daySelector d ≠ anchorSelector d := by
  have hstr : strfDMY d ≠ strfMDY d := by
    intro h
    have h' := congrArg String.data h
    simp only [strfDMY, strfMDY, String.data_append, List.append_assoc] at h'
    have := (List.append_inj h' (by rfl)).1
    exact hne (pad2_inj hd hm (String.ext this))
  refine ⟨hstr, ?_⟩
  intro h
  have h' := congrArg String.data h
  simp only [daySelector, anchorSelector, String.data_append] at h'
  have h'' := List.append_cancel_right h'
  have h''' := List.append_cancel_left h''
  exact hstr (String.ext h''')

/-- Witness for C3: for 2025-06-10 (day 10, month 6) the probe key
`10/06/2025` differs from the anchor key `06/10/2025`. -/
theorem scanner_mixed_date_formats_give_distinct_keys_witness :
    strfDMY ⟨2025, 6, 10⟩ ≠ strfMDY ⟨2025, 6, 10⟩ ∧
      daySelector ⟨2025, 6, 10⟩ ≠ anchorSelector ⟨2025, 6, 10⟩ :=
  scanner_mixed_date_formats_give_distinct_keys ⟨2025, 6, 10⟩
    (by decide) (by decide) (by decide)

/-- **C5.** Render gaps do not break the scan.  (1) When day `k` of a
valid range is absent from the grid and the days before it are rendered
and clear, the scan queries days 0..k, then attempts to click the
range's start anchor (and, when that click returns, its end anchor),
and then continues with exactly the scan of the remaining days — the
outcome is the outcome of that continuation.  (2) Whenever the scan
reports a blocked key, every date carrying that key is rendered in the
grid with `data-is-day-blocked` `true`, so a render-gap day (absent
cell) is never itself reported as `Blocked`.  (3) For every valid range
the scan returns the `ok` constructor (never an error), whatever the
grid and however the anchor clicks fail. -/
theorem scan_render_gap_clicks_anchors_and_continues
    (grid : String → CellState) (clickOk : String → Bool) :
    (∀ (startD endD : Date) (k : Nat),
      toOrdinal startD ≤ toOrdinal endD →
      k ≤ toOrdinal endD - toOrdinal startD →
      (∀ j < k, presentClear grid (dayAt startD j) = true) →
      grid (daySelector (dayAt startD k)) = .absent →
      is_date_range_blocked grid clickOk startD endD
        = (.ok (scanFrom grid clickOk (anchorSelector startD) (anchorSelector endD)
              (toOrdinal startD + k + 1) (toOrdinal endD - toOrdinal startD - k)).1,
           (List.range (k + 1)).map
               (fun j => ScanEvent.query (daySelector (dayAt startD j)))
             ++ (ScanEvent.clickAnchor (anchorSelector startD) ::
                  (if clickOk (anchorSelector startD)
                   then [ScanEvent.clickAnchor (anchorSelector endD)] else []))
             ++ (scanFrom grid clickOk (anchorSelector startD) (anchorSelector endD)
                  (toOrdinal startD + k + 1) (toOrdinal endD - toOrdinal startD - k)).2))
    ∧ (∀ (n ord : Nat) (key : String) (aS aE : String),
        (scanFrom grid clickOk aS aE ord n).1 = (true, some key) →
        ∀ d : Date, strfDMY d = key →
          grid (daySelector d) = .present (some "true"))
    ∧ (∀ startD endD : Date, toOrdinal startD ≤ toOrdinal endD →
        ∃ res, (is_date_range_blocked grid clickOk startD endD).1 = .ok res) := by
  refine ⟨?_, ?_, ?_⟩
  · intro startD endD k hrange hk hpc hab
    have hnot : ¬ (toOrdinal endD < toOrdinal startD) := by omega
    have main := scanFrom_gap grid clickOk
      (anchorSelector startD) (anchorSelector endD) k
      (toOrdinal endD - toOrdinal startD + 1) (toOrdinal startD)
      (by omega) hpc hab
    have hsub : toOrdinal endD - toOrdinal startD + 1 - k - 1
        = toOrdinal endD - toOrdinal startD - k := by omega
    rw [hsub] at main
    simp only [is_date_range_blocked, if_neg hnot, dayAt, main]
  · intro n ord key aS aE h d hd
    exact scanFrom_blocked_key_is_rendered grid clickOk aS aE n ord key h d hd
  · intro startD endD hrange
    have hnot : ¬ (toOrdinal endD < toOrdinal startD) := by omega
    refine ⟨(scanFrom grid clickOk (anchorSelector startD) (anchorSelector endD)
      (toOrdinal startD) (toOrdinal endD - toOrdinal startD + 1)).1, ?_⟩
    simp only [is_date_range_blocked, if_neg hnot]

/-- Witness for C5: range 2025-06-10..2025-06-12 with the 11th missing
from the grid — after querying days 10 and 11 the scan clicks both
anchors and continues with day 12; a gap-then-block grid reports the
rendered blocked day 12, never the absent 11th; and both grids yield an
`ok` outcome on the full range. -/
theorem scan_render_gap_clicks_anchors_and_continues_witness :
    (is_date_range_blocked gridGapOnJun11 (fun _ => true)
        ⟨2025, 6, 10⟩ ⟨2025, 6, 12⟩
      = (.ok (scanFrom gridGapOnJun11 (fun _ => true)
            (anchorSelector ⟨2025, 6, 10⟩) (anchorSelector ⟨2025, 6, 12⟩)
            (toOrdinal ⟨2025, 6, 10⟩ + 1 + 1)
            (toOrdinal ⟨2025, 6, 12⟩ - toOrdinal ⟨2025, 6, 10⟩ - 1)).1,
         (List.range 2).map
             (fun j => ScanEvent.query (daySelector (dayAt ⟨2025, 6, 10⟩ j)))
           ++ (ScanEvent.clickAnchor (anchorSelector ⟨2025, 6, 10⟩) ::
                (if (fun (_ : String) => true) (anchorSelector ⟨2025, 6, 10⟩)
                 then [ScanEvent.clickAnchor (anchorSelector ⟨2025, 6, 12⟩)] else []))
           ++ (scanFrom gridGapOnJun11 (fun _ => true)
                (anchorSelector ⟨2025, 6, 10⟩) (anchorSelector ⟨2025, 6, 12⟩)
                (toOrdinal ⟨2025, 6, 10⟩ + 1 + 1)
                (toOrdinal ⟨2025, 6, 12⟩ - toOrdinal ⟨2025, 6, 10⟩ - 1)).2))
    ∧ (∀ d : Date, strfDMY d = "12/06/2025" →
        gridGapThenBlock (daySelector d) = .present (some "true"))
    ∧ (∃ res, (is_date_range_blocked gridGapThenBlock (fun _ => true)
        ⟨2025, 6, 10⟩ ⟨2025, 6, 12⟩).1 = .ok res) := by
  refine ⟨?_, ?_, ?_⟩
  · exact (scan_render_gap_clicks_anchors_and_continues gridGapOnJun11
      (fun _ => true)).1 ⟨2025, 6, 10⟩ ⟨2025, 6, 12⟩ 1
      (by decide) (by decide) (by decide) (by decide)
  · exact fun d hd => (scan_render_gap_clicks_anchors_and_continues
      gridGapThenBlock (fun _ => true)).2.1 3 (toOrdinal ⟨2025, 6, 10⟩)
      "12/06/2025" (anchorSelector ⟨2025, 6, 10⟩) (anchorSelector ⟨2025, 6, 12⟩)
      (by decide) d hd
  · exact (scan_render_gap_clicks_anchors_and_continues gridGapThenBlock
      (fun _ => true)).2.2 ⟨2025, 6, 10⟩ ⟨2025, 6, 12⟩ (by decide)

/-- **C6.** The fallback-chain probe evaluates candidates in exactly
declaration order and stops at the first visible one, never touching
later candidates: for a chain `pre ++ c :: post` whose `pre` holds no
visible candidate and whose `c` is visible, the evaluated candidates
are exactly `pre ++ [c]` and the result is `c`.  A candidate whose
visibility check raises is treated identically to one that reports not
visible — in both cases the loop records it and continues with the
rest.  When every candidate is exhausted without a visible match the
probe returns `none` (the `element_found = False` fall-through) having
evaluated the whole chain, and — being a total function into
`Option × List` — propagates no exception to the caller. -/
theorem resolveChain_first_visible_wins {α : Type} (check : VisCheck α) :
    (∀ (pre : List α) (c : α) (post : List α),
      (∀ x ∈ pre, check x ≠ .ok true) → check c = .ok true →
      resolveChain check (pre ++ c :: post) = (some c, pre ++ [c]))
  ∧ (∀ (c : α) (rest : List α), check c = .error () ∨ check c = .ok false →
      resolveChain check (c :: rest)
        = ((resolveChain check rest).1, c :: (resolveChain check rest).2))
  ∧ (∀ chain : List α, (∀ x ∈ chain, check x ≠ .ok true) →
      resolveChain check chain = (none, chain)) := by
  refine ⟨resolveChain_found check, ?_, resolveChain_none check⟩
  intro c rest h
  refine resolveChain_skip check c rest ?_
  rcases h with h | h <;> simp [h]

/-- Witness for C6: with only `listing-card` visible the chain stops
right after it; an erroring `footer` check continues like a not-visible
one; a never-visible chain yields `none` with the whole chain evaluated. -/
theorem resolveChain_first_visible_wins_witness :
    resolveChain visOnlyListingCard
        ([mkTestIdSel "card-container"] ++ mkTestIdSel "listing-card"
          :: [mkTestIdSel "explore-footer"])
      = (some (mkTestIdSel "listing-card"),
         [mkTestIdSel "card-container"] ++ [mkTestIdSel "listing-card"])
    ∧ resolveChain visErrOnFooter ("footer" :: ["h1"])
      = ((resolveChain visErrOnFooter ["h1"]).1,
         "footer" :: (resolveChain visErrOnFooter ["h1"]).2)
    ∧ resolveChain visErrOnFooter ["h1"]
      = (none, ["h1"]) := by
  refine ⟨?_, ?_, ?_⟩
  · exact (resolveChain_first_visible_wins visOnlyListingCard).1
      [mkTestIdSel "card-container"] (mkTestIdSel "listing-card")
      [mkTestIdSel "explore-footer"] (by decide) (by decide)
  · exact (resolveChain_first_visible_wins visErrOnFooter).2.1
      "footer" ["h1"] (Or.inl (by decide))
  · exact (resolveChain_first_visible_wins visErrOnFooter).2.2
      ["h1"] (by decide)

/-- **C7.** `_ensure_full_screen` is idempotent: when the reported
viewport already equals the expected spec the call performs no
corrective driver action (no resize, no bring-to-front, no settle wait)
and reports the already-satisfied outcome (`false` flag, empty action
trace); and from any starting viewport, two successive calls with the
same expected spec take the corrective branch at most once — the second
call always lands in the already-satisfied branch with no actions. -/
theorem ensure_full_screen_idempotent :
    (∀ expected : Viewport,
      ensure_full_screen expected (some expected) = (false, some expected, []))
  ∧ (∀ (expected : Viewport) (current : Option Viewport),
      ensure_full_screen expected (ensure_full_screen expected current).2.1
          = (false, (ensure_full_screen expected current).2.1, [])
        ∧ viewportCorrections ((ensure_full_screen expected current).2.2
            ++ (ensure_full_screen expected
                (ensure_full_screen expected current).2.1).2.2) ≤ 1) := by
  constructor
  · intro expected
    simp [ensure_full_screen]
  · intro expected current
    by_cases h : current = some expected
    · simp [ensure_full_screen, h, viewportCorrections]
    · simp [ensure_full_screen, h, viewportCorrections]

/-- **C8.** The readiness detector's load-state wait is soft and its
indicator probing short-circuits.  (1) The outcome and probe trace are
the same whether the `domcontentloaded` wait timed out or not — a
timeout never makes the detector fail, it proceeds to indicator
probing.  (2) On an open page the first visible indicator of the
priority chain (test ids before generic selectors) returns `ready`
immediately with exactly the candidates up to it probed.  (3) When no
indicator is visible the detector returns `degraded` — a value, not an
exception — with the whole chain probed, whatever the body-content
fallback reported. -/
theorem wait_for_page_load_soft_and_short_circuit :
    (∀ env : LoadEnv,
      wait_for_page_load env
        = wait_for_page_load
            ⟨env.pageAvailable, true, env.visible, env.bodyHasContent⟩)
  ∧ (∀ (env : LoadEnv) (pre : List String) (sel : String) (post : List String),
      env.pageAvailable = true →
      readinessChain = pre ++ sel :: post →
      (∀ x ∈ pre, env.visible x ≠ .ok true) →
      env.visible sel = .ok true →
      wait_for_page_load env = (.ready sel, pre ++ [sel]))
  ∧ (∀ env : LoadEnv, env.pageAvailable = true →
      (∀ x ∈ readinessChain, env.visible x ≠ .ok true) →
      wait_for_page_load env = (.degraded, readinessChain)) := by
  refine ⟨fun env => rfl, ?_, ?_⟩
  · intro env pre sel post hav hchain hpre hsel
    rw [wait_for_page_load_eq_chain env hav, hchain,
      resolveChain_found env.visible pre sel post hpre hsel]
  · intro env hav hnone
    rw [wait_for_page_load_eq_chain env hav,
      resolveChain_none env.visible readinessChain hnone]

/-- Witness for C8: an open page where only the `listing-card` test id
is visible returns `ready` having probed only `card-container` and
`listing-card`; a page where the oracle raises on `footer` and reports
everything else hidden returns `degraded` with the whole chain probed. -/
theorem wait_for_page_load_soft_and_short_circuit_witness :
    wait_for_page_load ⟨true, false, visOnlyListingCard, false⟩
      = (.ready (mkTestIdSel "listing-card"),
         [mkTestIdSel "card-container"] ++ [mkTestIdSel "listing-card"])
    ∧ wait_for_page_load ⟨true, false, visErrOnFooter, false⟩
      = (.degraded, readinessChain) := by
  constructor
  · exact wait_for_page_load_soft_and_short_circuit.2.1
      ⟨true, false, visOnlyListingCard, false⟩
      [mkTestIdSel "card-container"] (mkTestIdSel "listing-card")
      (mkTestIdSel "explore-footer" :: mkTestIdSel "little-search"
        :: genericSelectors)
      rfl (by decide) (by decide) (by decide)
  · exact wait_for_page_load_soft_and_short_circuit.2.2
      ⟨true, false, visErrOnFooter, false⟩ rfl (by decide)

/-- **C9.** Guest-count reduction from 3 total guests with 1 child to a
target of 0 children.  (1) On a stepper that behaves as documented,
the operation clicks the decrease control exactly once, both assertions
pass (`ok`), and the controls then read 0 children and the previous
total minus 1.  (2) For any picker whose initial readings are 3 guests
and 1 child, the event trace is exactly one open followed by one
decrease click, and the operation returns `ok` — rather than raising
`AssertionError` — precisely when the post-click child reading is 0 and
the post-click guest reading is 2 (= 3 − 1): if either postcondition
fails, the assertion raises. -/
theorem remove_kids_single_decrease_and_asserts :
    (remove_kids_from__highest_rated_listing (stepperEnv 3 1) 0
        = (.ok (), [.openGuests, .clickDecrease])
      ∧ (stepperEnv 3 1).readChild 1 = 0
      ∧ (stepperEnv 3 1).readGuests 1 = (stepperEnv 3 1).readGuests 0 - 1)
  ∧ (∀ env : GuestEnv, env.readGuests 0 = 3 → env.readChild 0 = 1 →
      (remove_kids_from__highest_rated_listing env 0).2
          = [.openGuests, .clickDecrease]
      ∧ ((remove_kids_from__highest_rated_listing env 0).1 = .ok ()
          ↔ env.readChild 1 = 0 ∧ env.readGuests 1 = 2)) := by
  constructor
  · refine ⟨?_, by decide, by decide⟩
    rfl
  · intro env hg hc
    have key : remove_kids_from__highest_rated_listing env 0
        = (if (0 : Int) = env.readChild 1 ∧ env.readGuests 1 = 3 - (1 : Int) then
             (Except.ok (), [GuestEvent.openGuests, GuestEvent.clickDecrease])
           else
             (Except.error (), [GuestEvent.openGuests, GuestEvent.clickDecrease])) := by
      simp only [remove_kids_from__highest_rated_listing, hg, hc]
      norm_num [List.replicate]
    constructor
    · rw [key]
      split <;> rfl
    · rw [key]
      by_cases hcond : (0 : Int) = env.readChild 1 ∧ env.readGuests 1 = 3 - (1 : Int)
      · rw [if_pos hcond]
        have h2 : env.readGuests 1 = 2 := by rw [hcond.2]; norm_num
        simp [hcond.1.symm, h2]
      · rw [if_neg hcond]
        constructor
        · intro h
          exact absurd h (by simp)
        · intro h
          exact absurd ⟨h.1.symm, by rw [h.2]; norm_num⟩ hcond

/-- Witness for C9: the documented stepper starting at 3 guests / 1
child satisfies the general contract — one decrease click and an `ok`
outcome with readings 0 and 2. -/
theorem remove_kids_single_decrease_and_asserts_witness :
    (remove_kids_from__highest_rated_listing (stepperEnv 3 1) 0).2
        = [.openGuests, .clickDecrease]
      ∧ ((remove_kids_from__highest_rated_listing (stepperEnv 3 1) 0).1 = .ok ()
          ↔ (stepperEnv 3 1).readChild 1 = 0 ∧ (stepperEnv 3 1).readGuests 1 = 2) :=
  remove_kids_single_decrease_and_asserts.2 (stepperEnv 3 1)
    (by decide) (by decide)

/-- **C10.** The final assertion of `reserve_and_validate` never checks
the adults count.  (1) The method's assertions pass exactly when the URL
changed across the reserve click and the substring `book` occurs in the
post-click URL.  (2) The outcome is identical for any two adults
counts.  (3) The reason: the f-string `numberOfAdults={adults_count}`
is a non-empty, hence truthy, string for every count, so Python's `and`
discards it and only the `"book" in url` operand is ever tested. -/
theorem reserve_final_assert_ignores_adults :
    (∀ (adultsCount : Int) (urlBefore urlAfter : String),
      reserve_and_validate adultsCount urlBefore urlAfter = .ok ()
        ↔ urlBefore ≠ urlAfter ∧ containsSub "book".data urlAfter.data = true)
  ∧ (∀ (a₁ a₂ : Int) (urlBefore urlAfter : String),
      reserve_and_validate a₁ urlBefore urlAfter
        = reserve_and_validate a₂ urlBefore urlAfter)
  ∧ (∀ adultsCount : Int, pyTruthy (numberOfAdultsStr adultsCount) = true) := by
  have htruthy : ∀ a : Int, pyTruthy (numberOfAdultsStr a) = true := by
    intro a
    simp only [pyTruthy, numberOfAdultsStr, decide_eq_true_eq]
    intro h
    have h' := congrArg String.data h
    rw [String.data_append] at h'
    have h'' : "numberOfAdults=".data = [] := (List.append_eq_nil.mp h').1
    exact absurd h'' (by decide)
  have hcond : ∀ (a : Int) (u : String),
      finalAssertCond a u = containsSub "book".data u.data := by
    intro a u
    rw [finalAssertCond, if_pos]
    exact (by simpa using htruthy a)
  refine ⟨?_, ?_, htruthy⟩
  · intro adultsCount urlBefore urlAfter
    rw [reserve_and_validate]
    by_cases hurl : urlBefore = urlAfter
    · simp [hurl]
    · rw [if_neg hurl, hcond]
      by_cases hbook : containsSub "book".data urlAfter.data = true
      · simp [hbook, hurl]
      · simp only [Bool.not_eq_true] at hbook
        simp [hbook, hurl]
  · intro a₁ a₂ urlBefore urlAfter
    rw [reserve_and_validate, reserve_and_validate, hcond, hcond]

/-- Witness for C10: with the URL changed to one containing `book`, the
assertions pass for adults count 2 — and the outcome for adults count 2
equals the outcome for adults count 99, whose `numberOfAdults` string is
likewise truthy. -/
theorem reserve_final_assert_ignores_adults_witness :
    reserve_and_validate 2 "https://www.airbnb.com/rooms/42"
        "https://www.airbnb.com/book/stays/42" = .ok ()
    ∧ reserve_and_validate 2 "https://www.airbnb.com/rooms/42"
        "https://www.airbnb.com/book/stays/42"
      = reserve_and_validate 99 "https://www.airbnb.com/rooms/42"
        "https://www.airbnb.com/book/stays/42"
    ∧ pyTruthy (numberOfAdultsStr 2) = true := by
  refine ⟨?_, ?_, ?_⟩
  · exact (reserve_final_assert_ignores_adults.1 2 _ _).mpr
      ⟨by decide, by decide⟩
  · exact reserve_final_assert_ignores_adults.2.1 2 99 _ _
  · exact reserve_final_assert_ignores_adults.2.2 2

end Airbnb
